import Mathlib

/-!
# TBS A711 platform driver (`drivers/misc/tbs-a711.c`)

A shallow embedding of the driver's power sequencer, its single-slot request
mailbox, the deferred worker, the wakeup interrupt handler and the character
device entry points, followed by theorems about them.

Conventions of the embedding

* The C `int` fields of `struct a711_dev` are `Int`s and are tested the way C
  tests them (`!x` is `x = 0`).
* The optional resources (`enable_gpio`, `reset_gpio`, `regulator`) are
  pointers that the driver only ever compares with `NULL`; each is a `Bool`
  that is `true` when the pointer is non-`NULL`.
* Every function returns the device after the call together with the list of
  kernel services it invoked, in program order (`Call`).
* What the environment decides (the return value of `regulator_enable`, the
  caller's capability, whether a user copy faults, what happens while a reader
  sleeps) is an explicit argument.
* A negative errno return `-EXXX` is `Except.error EXXX`.
-/

namespace A711

/-! ## Data model -/

/-- Request codes of the anonymous `enum` at the top of the driver. -/
def A711_REQ_NONE : Int := 0

/-- Request code `A711_REQ_RESET`. -/
def A711_REQ_RESET : Int := 1

/-- Request code `A711_REQ_PWDN`. -/
def A711_REQ_PWDN : Int := 2

/-- Request code `A711_REQ_PWUP`. -/
def A711_REQ_PWUP : Int := 3

/-- The fields of `struct a711_dev` that the driver's logic reads or writes.
The lock, the wait queue, the work item and the character device plumbing
carry no data of their own in a sequential model. -/
structure a711_dev where
  /-- Is `enable_gpio` non-NULL. -/
  enable_gpio : Bool
  /-- Is `reset_gpio` non-NULL. -/
  reset_gpio : Bool
  /-- Is `regulator` non-NULL. -/
  regulator : Bool
  /-- Field `u32 reset_duration`, in milliseconds. -/
  reset_duration : Nat
  got_wakeup : Int
  is_open : Int
  last_request : Int
  is_enabled : Int
  deriving DecidableEq, Repr

/-- Which descriptor of the device a `gpiod_set_value` call is given. -/
inductive Gpio
  | enable_gpio
  | reset_gpio
  deriving DecidableEq, Repr

/-- The kernel services the driver invokes, with their arguments. -/
inductive Call
  /-- Call `gpiod_set_value(a711->..._gpio, value)`. -/
  | gpiod_set_value (desc : Gpio) (value : Int)
  /-- Call `msleep(msecs)`. -/
  | msleep (msecs : Nat)
  /-- Call `regulator_enable(a711->regulator)`, which returned `ret`. -/
  | regulator_enable (ret : Int)
  /-- Call `regulator_disable(a711->regulator)`. -/
  | regulator_disable
  /-- Call `schedule_work(&a711->work)`. -/
  | schedule_work
  /-- Call `wake_up_interruptible(&a711->waitqueue)`. -/
  | wake_up_interruptible
  /-- Call `poll_wait(fp, &a711->waitqueue, wait)`. -/
  | poll_wait
  /-- Call `copy_to_user` handing `data` to the caller. -/
  | copy_to_user (data : Int)
  deriving DecidableEq, Repr

/-- The calls that reach the power hardware: GPIO lines, regulator, sleeps. -/
def Call.isBackend : Call → Bool
  | .gpiod_set_value _ _ => true
  | .msleep _ => true
  | .regulator_enable _ => true
  | .regulator_disable => true
  | _ => false

/-- The calls that make up a reset pulse: writes of the reset line and sleeps. -/
def Call.isResetPulse : Call → Bool
  | .gpiod_set_value .reset_gpio _ => true
  | .msleep _ => true
  | _ => false

/-- The errno values the entry points return (negated) to their caller. -/
inductive Errno
  | EWOULDBLOCK
  | ERESTARTSYS
  | EIO
  | EFAULT
  | EBUSY
  | EACCES
  | ENOSYS
  deriving DecidableEq, Repr

/-- The `cmd` argument of the ioctl entry point: the four codes the driver
defines, and `other` for every code that is none of them. -/
inductive IoctlCmd
  | A711_IOCTL_RESET
  | A711_IOCTL_POWERUP
  | A711_IOCTL_POWERDN
  | A711_IOCTL_STATUS
  | other
  deriving DecidableEq, Repr

/-- Readiness bits returned by the poll entry point. -/
inductive PollBit
  | POLLIN
  | POLLRDNORM
  deriving DecidableEq, Repr

/-- Outcome of an entry point: its return value, the device afterwards and
the kernel services it invoked, in order. -/
structure Result (ρ : Type) where
  ret : ρ
  a711 : a711_dev
  calls : List Call

/-! ## Power sequencer -/

/-- Function `a711_reset`. -/
def a711_reset (a711 : a711_dev) : a711_dev × List Call :=
  if a711.is_enabled = 0 then (a711, [])
  else if a711.reset_gpio = false then (a711, [])
  else
    (a711,
      [ .gpiod_set_value .reset_gpio 1,
        .msleep a711.reset_duration,
        .gpiod_set_value .reset_gpio 0 ])

/-- Function `a711_power_down`. -/
def a711_power_down (a711 : a711_dev) : a711_dev × List Call :=
  if a711.is_enabled = 0 then (a711, [])
  else
    ({ a711 with is_enabled := 0 },
      [ .gpiod_set_value .enable_gpio 0,
        if a711.regulator then .regulator_disable
        else .gpiod_set_value .reset_gpio 1 ])

/-- Function `a711_power_up`; `ret` is what `regulator_enable` returns if it
is called. -/
def a711_power_up (ret : Int) (a711 : a711_dev) : a711_dev × List Call :=
  if a711.is_enabled ≠ 0 then (a711, [])
  else if a711.regulator = true ∧ ret < 0 then (a711, [.regulator_enable ret])
  else
    ({ a711 with is_enabled := 1 },
      (if a711.regulator then [.regulator_enable ret] else []) ++
      [ .gpiod_set_value .enable_gpio 1,
        .gpiod_set_value .reset_gpio 1,
        .msleep a711.reset_duration,
        .gpiod_set_value .reset_gpio 0 ])

/-! ## Deferred worker -/

/-- Function `a711_work_handler`: take the pending request out of the slot,
then dispatch on it. `ret` is passed on to `a711_power_up`. -/
def a711_work_handler (ret : Int) (a711 : a711_dev) : a711_dev × List Call :=
  let last_request := a711.last_request
  let a711 := { a711 with last_request := 0 }
  if last_request = A711_REQ_RESET then a711_reset a711
  else if last_request = A711_REQ_PWDN then a711_power_down a711
  else if last_request = A711_REQ_PWUP then a711_power_up ret a711
  else (a711, [])

/-! ## Wakeup channel -/

/-- Function `a711_has_wakeup`. -/
def a711_has_wakeup (a711 : a711_dev) : Bool :=
  decide (a711.got_wakeup ≠ 0)

/-- Function `a711_wakeup_isr` (it always returns `IRQ_HANDLED`). -/
def a711_wakeup_isr (a711 : a711_dev) : a711_dev × List Call :=
  ({ a711 with got_wakeup := 1 }, [.wake_up_interruptible])

/-- The kernel's `wait_event_interruptible(a711->waitqueue, a711_has_wakeup(a711))`:
returns at once when the condition already holds; otherwise the caller sleeps
until either a signal is delivered (`signal = true`, the wait fails with
`ERESTARTSYS`) or the wakeup interrupt handler runs and makes the condition
true. -/
def wait_event_interruptible (signal : Bool) (a711 : a711_dev) :
    Except Errno Unit × a711_dev :=
  if a711_has_wakeup a711 then (.ok (), a711)
  else if signal then (.error .ERESTARTSYS, a711)
  else (.ok (), (a711_wakeup_isr a711).1)

/-! ## Control channel -/

/-- Function `a711_read`.
* `non_blocking` is `fp->f_flags & O_NONBLOCK`;
* `signal` is what happens if the reader has to sleep (see
  `wait_event_interruptible`);
* `raced` says that another reader of the same session consumed the flag
  between the end of the wait and this reader taking the lock;
* `copy_ok` says that `copy_to_user` succeeds. -/
def a711_read (non_blocking signal raced copy_ok : Bool) (a711 : a711_dev) :
    Result (Except Errno Int) :=
  if non_blocking = true ∧ a711_has_wakeup a711 = false then
    ⟨.error .EWOULDBLOCK, a711, []⟩
  else
    match wait_event_interruptible signal a711 with
    | (.error e, a711) => ⟨.error e, a711, []⟩
    | (.ok (), a711) =>
      let a711 := if raced then { a711 with got_wakeup := 0 } else a711
      let got_wakeup := a711.got_wakeup
      let a711 := { a711 with got_wakeup := 0 }
      if got_wakeup = 0 then ⟨.error Errno.EIO, a711, []⟩
      else if copy_ok then ⟨.ok 1, a711, [.copy_to_user 1]⟩
      else ⟨.error .EFAULT, a711, [.copy_to_user 1]⟩

/-- Function `a711_write`. `len` is the length given by the caller and `buf`
the first byte of the user buffer, `none` when `copy_from_user` faults. -/
def a711_write (len : Nat) (buf : Option Char) (a711 : a711_dev) :
    Result (Except Errno Int) :=
  if len = 0 then ⟨.ok 0, a711, []⟩
  else
    match buf with
    | none => ⟨.error .EFAULT, a711, []⟩
    | some c =>
      let a711 :=
        if c = 'r' then { a711 with last_request := A711_REQ_RESET }
        else if c = 'u' then { a711 with last_request := A711_REQ_PWUP }
        else if c = 'd' then { a711 with last_request := A711_REQ_PWDN }
        else { a711 with last_request := A711_REQ_NONE }
      let update := decide (a711.last_request ≠ 0)
      ⟨.ok 1, a711, if update then [.schedule_work] else []⟩

/-- Function `a711_poll`. -/
def a711_poll (a711 : a711_dev) : Result (List PollBit) :=
  ⟨if a711.got_wakeup ≠ 0 then [.POLLIN, .POLLRDNORM] else [], a711, [.poll_wait]⟩

/-- Function `a711_ioctl`. `capable` is `capable(CAP_SYS_ADMIN)` and `copy_ok`
says that the `copy_to_user` of the status succeeds. -/
def a711_ioctl (capable : Bool) (cmd : IoctlCmd) (copy_ok : Bool) (a711 : a711_dev) :
    Result (Except Errno Int) :=
  if capable = false then ⟨.error .EACCES, a711, []⟩
  else
    match cmd with
    | .A711_IOCTL_STATUS =>
      let powered : Int :=
        if a711.is_enabled ≠ 0 ∨ a711.last_request = A711_REQ_PWUP then 1 else 0
      if copy_ok then ⟨.ok 0, a711, [.copy_to_user powered]⟩
      else ⟨.error .EFAULT, a711, [.copy_to_user powered]⟩
    | .A711_IOCTL_RESET =>
      ⟨.ok 0, { a711 with last_request := A711_REQ_RESET }, [.schedule_work]⟩
    | .A711_IOCTL_POWERUP =>
      ⟨.ok 0, { a711 with last_request := A711_REQ_PWUP }, [.schedule_work]⟩
    | .A711_IOCTL_POWERDN =>
      ⟨.ok 0, { a711 with last_request := A711_REQ_PWDN }, [.schedule_work]⟩
    | .other => ⟨.error .ENOSYS, a711, []⟩

/-- Function `a711_release`. -/
def a711_release (a711 : a711_dev) : Result Int :=
  ⟨0, { a711 with is_open := 0 }, []⟩

/-- Function `a711_open`. -/
def a711_open (a711 : a711_dev) : Result (Except Errno Int) :=
  if a711.is_open ≠ 0 then ⟨.error .EBUSY, a711, []⟩
  else ⟨.ok 0, { a711 with is_open := 1 }, []⟩

/-! ## The system as a transition system -/

/-- One step of the system: a call of an entry point together with what the
environment decides during it, an interrupt, or a run of the worker. -/
inductive Op
  | a711_open
  | a711_release
  | a711_read (non_blocking signal raced copy_ok : Bool)
  | a711_write (len : Nat) (buf : Option Char)
  | a711_poll
  | a711_ioctl (capable : Bool) (cmd : IoctlCmd) (copy_ok : Bool)
  | a711_wakeup_isr
  | a711_work_handler (ret : Int)
  deriving DecidableEq, Repr

/-- Effect of one step on the device, and the kernel services it invokes. -/
def step (o : Op) (a711 : a711_dev) : a711_dev × List Call :=
  match o with
  | .a711_open => ((a711_open a711).a711, (a711_open a711).calls)
  | .a711_release => ((a711_release a711).a711, (a711_release a711).calls)
  | .a711_read nb sg rc ok =>
    ((a711_read nb sg rc ok a711).a711, (a711_read nb sg rc ok a711).calls)
  | .a711_write len buf => ((a711_write len buf a711).a711, (a711_write len buf a711).calls)
  | .a711_poll => ((a711_poll a711).a711, (a711_poll a711).calls)
  | .a711_ioctl cap cmd ok =>
    ((a711_ioctl cap cmd ok a711).a711, (a711_ioctl cap cmd ok a711).calls)
  | .a711_wakeup_isr => a711_wakeup_isr a711
  | .a711_work_handler ret => a711_work_handler ret a711

/-- Effect of a sequence of steps, run one after the other. -/
def run : List Op → a711_dev → a711_dev × List Call
  | [], a711 => (a711, [])
  | o :: os, a711 =>
    ((run os (step o a711).1).1, (step o a711).2 ++ (run os (step o a711).1).2)

/-! ## Vocabulary of the specification -/

/-- The values of the specification's `pendingRequest`. -/
inductive Kind
  | None
  | Reset
  | PowerUp
  | PowerDown
  deriving DecidableEq, Repr

/-- The request code that stands for a kind in `last_request`. -/
def Kind.code : Kind → Int
  | .None => A711_REQ_NONE
  | .Reset => A711_REQ_RESET
  | .PowerUp => A711_REQ_PWUP
  | .PowerDown => A711_REQ_PWDN

/-- The specification's command alphabet of `write`:
`'r'` is Reset, `'u'` is PowerUp, `'d'` is PowerDown, anything else is None. -/
def Kind.ofByte (c : Char) : Kind :=
  if c = 'r' then .Reset
  else if c = 'u' then .PowerUp
  else if c = 'd' then .PowerDown
  else .None

/-- The specification's request submissions and the kind each one submits:
a write of at least one readable byte, or a privileged Reset, PowerUp or
PowerDown ioctl. Every other step is not a submission. -/
def Op.submits : Op → Option Kind
  | .a711_write len (some c) => if len = 0 then none else some (Kind.ofByte c)
  | .a711_ioctl true .A711_IOCTL_RESET _ => some .Reset
  | .a711_ioctl true .A711_IOCTL_POWERUP _ => some .PowerUp
  | .a711_ioctl true .A711_IOCTL_POWERDN _ => some .PowerDown
  | _ => none

/-- The specification's deferred execution for a drained kind: Reset, PowerUp
and PowerDown go to the matching sequencer operation, None does nothing. -/
def Kind.dispatch (k : Kind) (ret : Int) (a711 : a711_dev) : a711_dev × List Call :=
  match k with
  | .None => (a711, [])
  | .Reset => a711_reset a711
  | .PowerUp => a711_power_up ret a711
  | .PowerDown => a711_power_down a711

/-- A device right after attach, used to instantiate the theorems: enable and
reset lines present, no regulator, the default 10 ms reset pulse, every flag
clear. -/
def dev_gpio_only : a711_dev :=
  { enable_gpio := true, reset_gpio := true, regulator := false, reset_duration := 10,
    got_wakeup := 0, is_open := 0, last_request := 0, is_enabled := 0 }

/-- A device with a regulator besides the two lines, right after attach. -/
def dev_regulator : a711_dev :=
  { enable_gpio := true, reset_gpio := true, regulator := true, reset_duration := 10,
    got_wakeup := 0, is_open := 0, last_request := 0, is_enabled := 0 }

/-- Is the step a run of the deferred worker. -/
def Op.isWorker : Op → Bool
  | .a711_work_handler _ => true
  | _ => false

/-- Is the step a call of the read entry point. -/
def Op.isRead : Op → Bool
  | .a711_read _ _ _ _ => true
  | _ => false

/-- The C truth value of `is_enabled`, as the number 0 or 1. -/
def enabledBit (a711 : a711_dev) : Int :=
  if a711.is_enabled ≠ 0 then 1 else 0

/-- What a call adds to the number of enables the regulator holds from the
driver: 1 for a `regulator_enable` that succeeded (it returns 0 on success and a
negative errno on failure), -1 for a `regulator_disable`, 0 for anything else. -/
def Call.regulatorDelta : Call → Int
  | .regulator_enable ret => if ret < 0 then 0 else 1
  | .regulator_disable => -1
  | _ => 0

/-- Successful `regulator_enable` calls minus `regulator_disable` calls in a
sequence of calls. -/
def regulatorBalance (calls : List Call) : Int :=
  (calls.map Call.regulatorDelta).sum

/-- The logical values last driven on the two output lines. -/
structure Lines where
  enable : Int
  reset : Int
  deriving DecidableEq, Repr

/-- Effect of one call on the lines: `gpiod_set_value` drives the line of the
descriptor it is given, every other call leaves both lines alone. -/
def Lines.drive (l : Lines) : Call → Lines
  | .gpiod_set_value .enable_gpio v => { l with enable := v }
  | .gpiod_set_value .reset_gpio v => { l with reset := v }
  | _ => l

/-- The lines after a sequence of calls. -/
def Lines.after (l : Lines) (calls : List Call) : Lines :=
  calls.foldl Lines.drive l

/-- Function `a711_probe`, on the path that returns 0: the device is
zero-filled by `devm_kzalloc`, the resources found are stored
(`reset_duration` is the `reset-duration-ms` property, 10 when it is absent),
and the last statements drive the enable line to 0 and, when there is no
regulator, the reset line to 1. The error exits, which leave no device behind,
are not part of the model. -/
def a711_probe (enable_gpio reset_gpio regulator : Bool) (reset_duration_ms : Option Nat) :
    a711_dev × List Call :=
  ({ enable_gpio := enable_gpio, reset_gpio := reset_gpio, regulator := regulator,
     reset_duration := reset_duration_ms.getD 10,
     got_wakeup := 0, is_open := 0, last_request := 0, is_enabled := 0 },
    [.gpiod_set_value .enable_gpio 0] ++
      (if regulator = false then [.gpiod_set_value .reset_gpio 1] else []))

/-- Agreement of the lines with the device state: the enable line is asserted
exactly when `is_enabled` is set, and, when there is no regulator, the reset
line is asserted exactly when `is_enabled` is clear. -/
def LinesConsistent (a711 : a711_dev) (l : Lines) : Prop :=
  (l.enable ≠ 0 ↔ a711.is_enabled ≠ 0) ∧
    (a711.regulator = false → (l.reset ≠ 0 ↔ a711.is_enabled = 0))

instance (a711 : a711_dev) (l : Lines) : Decidable (LinesConsistent a711 l) := by
  unfold LinesConsistent
  infer_instance

/-! ## Auxiliary lemmas -/

theorem run_append (xs ys : List Op) (a : a711_dev) :
    run (xs ++ ys) a =
      ((run ys (run xs a).1).1, (run xs a).2 ++ (run ys (run xs a).1).2) := by
  induction xs generalizing a with
  | nil => simp [run]
  | cons x xs ih => simp [run, ih, List.append_assoc]

theorem step_of_submits {o : Op} {k : Kind} (h : o.submits = some k) (a : a711_dev) :
    (step o a).1 = { a with last_request := k.code } := by
  cases o with
  | a711_write len buf =>
    cases buf with
    | none => simp [Op.submits] at h
    | some c =>
      by_cases hl : len = 0
      · simp [Op.submits, hl] at h
      · simp only [Op.submits, hl, if_false, Option.some.injEq] at h
        subst h
        simp only [step, a711_write, hl, if_false, Kind.ofByte]
        split_ifs <;> rfl
  | a711_ioctl cap cmd ok =>
    cases cap <;> cases cmd <;> simp [Op.submits] at h <;> subst h <;>
      simp [step, a711_ioctl, Kind.code]
  | _ => simp [Op.submits] at h

theorem run_of_submits (pre : List Op) (h : ∀ p ∈ pre, p.submits ≠ none) (a : a711_dev) :
    ∃ x, (run pre a).1 = { a with last_request := x } := by
  induction pre generalizing a with
  | nil => exact ⟨a.last_request, rfl⟩
  | cons p ps ih =>
    have hp : p.submits ≠ none := h p (List.mem_cons_self _ _)
    obtain ⟨k, hk⟩ := Option.ne_none_iff_exists'.mp hp
    obtain ⟨x, hx⟩ := ih (fun q hq => h q (List.mem_cons_of_mem _ hq))
      { a with last_request := k.code }
    exact ⟨x, by simp [run, step_of_submits hk, hx]⟩

theorem work_handler_dispatch (k : Kind) (ret : Int) (a : a711_dev) :
    a711_work_handler ret { a with last_request := k.code } =
      k.dispatch ret { a with last_request := A711_REQ_NONE } := by
  cases k <;>
    simp [a711_work_handler, Kind.code, Kind.dispatch, A711_REQ_NONE, A711_REQ_RESET,
      A711_REQ_PWDN, A711_REQ_PWUP]

theorem reset_last_request (a : a711_dev) :
    (a711_reset a).1.last_request = a.last_request := by
  unfold a711_reset; split_ifs <;> rfl

theorem power_down_last_request (a : a711_dev) :
    (a711_power_down a).1.last_request = a.last_request := by
  unfold a711_power_down; split_ifs <;> rfl

theorem power_up_last_request (ret : Int) (a : a711_dev) :
    (a711_power_up ret a).1.last_request = a.last_request := by
  unfold a711_power_up; split_ifs <;> rfl

theorem work_handler_last_request (ret : Int) (a : a711_dev) :
    (a711_work_handler ret a).1.last_request = A711_REQ_NONE := by
  unfold a711_work_handler
  simp only
  split_ifs <;>
    simp [reset_last_request, power_down_last_request, power_up_last_request, A711_REQ_NONE]

theorem read_frame (nb sg rc ok : Bool) (a : a711_dev) :
    (a711_read nb sg rc ok a).a711 = a ∨
      (a711_read nb sg rc ok a).a711 = { a with got_wakeup := 0 } := by
  by_cases h : a.got_wakeup = 0 <;> cases nb <;> cases sg <;> cases rc <;> cases ok <;>
    simp [a711_read, wait_event_interruptible, a711_wakeup_isr, a711_has_wakeup, h]

theorem read_calls (nb sg rc ok : Bool) (a : a711_dev) :
    ∀ c ∈ (a711_read nb sg rc ok a).calls, c = .copy_to_user 1 := by
  by_cases h : a.got_wakeup = 0 <;> cases nb <;> cases sg <;> cases rc <;> cases ok <;>
    simp [a711_read, wait_event_interruptible, a711_wakeup_isr, a711_has_wakeup, h]

theorem write_frame (len : Nat) (buf : Option Char) (a : a711_dev) :
    (∃ x, (a711_write len buf a).a711 = { a with last_request := x }) ∧
      ∀ c ∈ (a711_write len buf a).calls, c = .schedule_work := by
  by_cases hl : len = 0
  · exact ⟨⟨a.last_request, by simp [a711_write, hl]⟩, by simp [a711_write, hl]⟩
  · cases buf with
    | none => exact ⟨⟨a.last_request, by simp [a711_write, hl]⟩, by simp [a711_write, hl]⟩
    | some c =>
      constructor
      · simp only [a711_write, hl, if_false]
        split_ifs
        exacts [⟨_, rfl⟩, ⟨_, rfl⟩, ⟨_, rfl⟩, ⟨_, rfl⟩]
      · simp only [a711_write, hl, if_false]
        intro x hx
        split_ifs at hx <;> simp_all

theorem ioctl_frame (cap : Bool) (cmd : IoctlCmd) (ok : Bool) (a : a711_dev) :
    (∃ x, (a711_ioctl cap cmd ok a).a711 = { a with last_request := x }) ∧
      ∀ c ∈ (a711_ioctl cap cmd ok a).calls, c.isBackend = false := by
  constructor
  · refine ⟨(a711_ioctl cap cmd ok a).a711.last_request, ?_⟩
    cases cap <;> cases cmd <;> cases ok <;> simp [a711_ioctl]
  · cases cap <;> cases cmd <;> cases ok <;> simp [a711_ioctl, Call.isBackend]

theorem step_frame (o : Op) (a : a711_dev) (h : o.isWorker = false) :
    (step o a).1.is_enabled = a.is_enabled ∧ (step o a).1.regulator = a.regulator ∧
      ∀ c ∈ (step o a).2, c.isBackend = false := by
  cases o with
  | a711_open =>
    by_cases ho : a.is_open = 0 <;> simp [step, a711_open, ho]
  | a711_release => simp [step, a711_release]
  | a711_read nb sg rc ok =>
    refine ⟨?_, ?_, ?_⟩
    · rcases read_frame nb sg rc ok a with e | e <;> simp [step, e]
    · rcases read_frame nb sg rc ok a with e | e <;> simp [step, e]
    · intro c hc
      rw [read_calls nb sg rc ok a c hc]
      rfl
  | a711_write len buf =>
    obtain ⟨⟨x, hx⟩, hc⟩ := write_frame len buf a
    refine ⟨by simp [step, hx], by simp [step, hx], fun c hmem => ?_⟩
    rw [hc c hmem]
    rfl
  | a711_poll => simp [step, a711_poll, Call.isBackend]
  | a711_ioctl cap cmd ok =>
    obtain ⟨⟨x, hx⟩, hc⟩ := ioctl_frame cap cmd ok a
    exact ⟨by simp [step, hx], by simp [step, hx], hc⟩
  | a711_wakeup_isr => simp [step, a711_wakeup_isr, Call.isBackend]
  | a711_work_handler ret => simp [Op.isWorker] at h

theorem work_handler_config (ret : Int) (a : a711_dev) :
    (a711_work_handler ret a).1.regulator = a.regulator ∧
      (a711_work_handler ret a).1.got_wakeup = a.got_wakeup := by
  unfold a711_work_handler a711_reset a711_power_down a711_power_up
  simp only
  split_ifs <;> simp

theorem step_regulator (o : Op) (a : a711_dev) : (step o a).1.regulator = a.regulator := by
  cases hw : o.isWorker
  · exact (step_frame o a hw).2.1
  · cases o <;> simp [Op.isWorker] at hw
    exact (work_handler_config _ a).1

theorem read_error_unchanged (nb sg rc ok : Bool) (a : a711_dev)
    (h : (a711_read nb sg rc ok a).ret = .error .EWOULDBLOCK ∨
      (a711_read nb sg rc ok a).ret = .error .ERESTARTSYS) :
    a711_read nb sg rc ok a = ⟨(a711_read nb sg rc ok a).ret, a, []⟩ := by
  revert h
  by_cases hg : a.got_wakeup = 0 <;> cases nb <;> cases sg <;> cases rc <;> cases ok <;>
    simp [a711_read, wait_event_interruptible, a711_wakeup_isr, a711_has_wakeup, hg]

theorem regulatorBalance_append (xs ys : List Call) :
    regulatorBalance (xs ++ ys) = regulatorBalance xs + regulatorBalance ys := by
  simp [regulatorBalance]

theorem regulatorBalance_of_not_backend (xs : List Call)
    (h : ∀ c ∈ xs, c.isBackend = false) : regulatorBalance xs = 0 := by
  induction xs with
  | nil => rfl
  | cons x xs ih =>
    have hx : x.isBackend = false := h x (List.mem_cons_self _ _)
    have hd : x.regulatorDelta = 0 := by
      cases x <;> simp_all [Call.isBackend, Call.regulatorDelta]
    have := ih (fun c hc => h c (List.mem_cons_of_mem _ hc))
    simp_all [regulatorBalance]

theorem work_handler_balance (ret : Int) (a : a711_dev) (hreg : a.regulator = true) :
    regulatorBalance (a711_work_handler ret a).2 =
      enabledBit (a711_work_handler ret a).1 - enabledBit a := by
  unfold a711_work_handler a711_reset a711_power_down a711_power_up
  simp only
  split_ifs <;> simp_all [regulatorBalance, Call.regulatorDelta, enabledBit]

theorem work_handler_balance_take (ret : Int) (a : a711_dev) (hreg : a.regulator = true)
    (n : Nat) :
    0 ≤ enabledBit a + regulatorBalance ((a711_work_handler ret a).2.take n) := by
  unfold a711_work_handler a711_reset a711_power_down a711_power_up
  simp only
  split_ifs <;> rcases n with _ | _ | _ | _ | _ | _ | n <;>
    simp_all [regulatorBalance, Call.regulatorDelta, enabledBit] <;>
    (try split_ifs) <;> (try omega)

theorem step_balance (o : Op) (a : a711_dev) (hreg : a.regulator = true) :
    regulatorBalance (step o a).2 = enabledBit (step o a).1 - enabledBit a := by
  cases hw : o.isWorker
  · have hf := step_frame o a hw
    rw [regulatorBalance_of_not_backend _ hf.2.2]
    simp [enabledBit, hf.1]
  · cases o <;> simp [Op.isWorker] at hw
    exact work_handler_balance _ a hreg

theorem step_balance_take (o : Op) (a : a711_dev) (hreg : a.regulator = true) (n : Nat) :
    0 ≤ enabledBit a + regulatorBalance ((step o a).2.take n) := by
  cases hw : o.isWorker
  · have hf := step_frame o a hw
    rw [regulatorBalance_of_not_backend _
      (fun c hc => hf.2.2 c (List.mem_of_mem_take hc))]
    unfold enabledBit
    split_ifs <;> simp
  · cases o <;> simp [Op.isWorker] at hw
    exact work_handler_balance_take _ a hreg n

theorem run_balance (ops : List Op) (a : a711_dev) (hreg : a.regulator = true) :
    regulatorBalance (run ops a).2 = enabledBit (run ops a).1 - enabledBit a := by
  induction ops generalizing a with
  | nil => simp [run, regulatorBalance]
  | cons o os ih =>
    have h1 : (step o a).1.regulator = true := by rw [step_regulator, hreg]
    simp only [run, regulatorBalance_append, step_balance o a hreg, ih _ h1]
    ring

theorem run_balance_take (ops : List Op) (a : a711_dev) (hreg : a.regulator = true)
    (n : Nat) :
    0 ≤ enabledBit a + regulatorBalance ((run ops a).2.take n) := by
  induction ops generalizing a n with
  | nil =>
    simp only [run, List.take_nil, regulatorBalance, List.map_nil, List.sum_nil, add_zero]
    unfold enabledBit
    split_ifs <;> simp
  | cons o os ih =>
    have h1 : (step o a).1.regulator = true := by rw [step_regulator, hreg]
    simp only [run, List.take_append_eq_append_take, regulatorBalance_append]
    by_cases hn : n ≤ (step o a).2.length
    · have h0 : n - (step o a).2.length = 0 := Nat.sub_eq_zero_of_le hn
      have := step_balance_take o a hreg n
      simp only [h0, List.take_zero, regulatorBalance, List.map_nil, List.sum_nil, add_zero]
      simpa [regulatorBalance] using this
    · have hle : (step o a).2.length ≤ n := Nat.le_of_lt (Nat.lt_of_not_le hn)
      rw [List.take_of_length_le hle]
      have hb := step_balance o a hreg
      have := ih (step o a).1 h1 (n - (step o a).2.length)
      linarith

theorem Lines.after_append (l : Lines) (xs ys : List Call) :
    l.after (xs ++ ys) = (l.after xs).after ys := by
  simp [Lines.after]

theorem Lines.after_of_not_backend (l : Lines) (xs : List Call)
    (h : ∀ c ∈ xs, c.isBackend = false) : l.after xs = l := by
  induction xs generalizing l with
  | nil => rfl
  | cons x xs ih =>
    have hx : x.isBackend = false := h x (List.mem_cons_self _ _)
    have hd : l.drive x = l := by
      cases x <;> simp_all [Call.isBackend, Lines.drive]
    have := ih l (fun c hc => h c (List.mem_cons_of_mem _ hc))
    simpa [Lines.after, hd] using this

theorem work_handler_lines (ret : Int) (a : a711_dev) (l : Lines)
    (h : LinesConsistent a l) :
    LinesConsistent (a711_work_handler ret a).1 (l.after (a711_work_handler ret a).2) := by
  unfold LinesConsistent at h ⊢
  obtain ⟨h1, h2⟩ := h
  unfold a711_work_handler a711_reset a711_power_down a711_power_up
  simp only
  cases hr : a.regulator <;> split_ifs <;>
    simp_all [Lines.after, Lines.drive]

theorem step_lines (o : Op) (a : a711_dev) (l : Lines) (h : LinesConsistent a l) :
    LinesConsistent (step o a).1 (l.after (step o a).2) := by
  cases hw : o.isWorker
  · have hf := step_frame o a hw
    rw [Lines.after_of_not_backend _ _ hf.2.2]
    unfold LinesConsistent at h ⊢
    rw [hf.1, hf.2.1]
    exact h
  · cases o <;> simp [Op.isWorker] at hw
    exact work_handler_lines _ a l h

theorem run_lines (ops : List Op) (a : a711_dev) (l : Lines) (h : LinesConsistent a l) :
    LinesConsistent (run ops a).1 (l.after (run ops a).2) := by
  induction ops generalizing a l with
  | nil => simpa [run, Lines.after] using h
  | cons o os ih =>
    simp only [run, Lines.after_append]
    exact ih _ _ (step_lines o a l h)

theorem probe_lines (eg rg reg : Bool) (dur : Option Nat) (l : Lines) :
    LinesConsistent (a711_probe eg rg reg dur).1 (l.after (a711_probe eg rg reg dur).2) := by
  cases reg <;> simp [LinesConsistent, a711_probe, Lines.after, Lines.drive]

theorem run_regulator (ops : List Op) (a : a711_dev) :
    (run ops a).1.regulator = a.regulator := by
  induction ops generalizing a with
  | nil => rfl
  | cons o os ih => simp [run, ih, step_regulator]

theorem run_wakeup_isr (n : Nat) (a : a711_dev) :
    (run (List.replicate (n + 1) Op.a711_wakeup_isr) a).1 = { a with got_wakeup := 1 } := by
  induction n generalizing a with
  | zero => simp [run, step, a711_wakeup_isr]
  | succ n ih =>
    show (run (List.replicate (n + 1) Op.a711_wakeup_isr)
      (step Op.a711_wakeup_isr a).1).1 = _
    rw [ih]
    simp [step, a711_wakeup_isr]

/-! ## Theorems -/

/-- C1 (coalescing law): after any non-empty sequence of request submissions
(writes of a command byte, privileged Reset, PowerUp or PowerDown ioctls) made
from any device state with no worker run in between, the next run of the worker
finds in the slot the kind of the last submission, every other field being as
before the submissions, does exactly what the specification's dispatch does for
that kind on the device with the slot emptied, and leaves the slot empty. -/
theorem C1_coalescing (a : a711_dev) (pre : List Op) (o : Op) (k : Kind) (ret : Int)
    (hpre : ∀ p ∈ pre, p.submits ≠ none) (ho : o.submits = some k) :
    (run (pre ++ [o]) a).1 = { a with last_request := k.code } ∧
      a711_work_handler ret (run (pre ++ [o]) a).1 =
        k.dispatch ret { a with last_request := A711_REQ_NONE } ∧
      (a711_work_handler ret (run (pre ++ [o]) a).1).1.last_request = A711_REQ_NONE := by
  obtain ⟨x, hx⟩ := run_of_submits pre hpre a
  have hrun : (run (pre ++ [o]) a).1 = { a with last_request := k.code } := by
    simp [run_append, run, step_of_submits ho, hx]
  refine ⟨hrun, ?_, work_handler_last_request _ _⟩
  rw [hrun]
  exact work_handler_dispatch k ret a

/-- Witness of C1: a write of `'u'`, a privileged PowerDown ioctl and then a
write of `'r'` on a freshly attached device; the worker dispatches Reset. -/
theorem C1_coalescing_witness :
    (∀ p ∈ [Op.a711_write 1 (some 'u'), Op.a711_ioctl true .A711_IOCTL_POWERDN true],
        p.submits ≠ none) ∧
      (Op.a711_write 1 (some 'r')).submits = some Kind.Reset ∧
      (run ([Op.a711_write 1 (some 'u'), Op.a711_ioctl true .A711_IOCTL_POWERDN true] ++
          [Op.a711_write 1 (some 'r')]) dev_gpio_only).1 =
        { dev_gpio_only with last_request := Kind.Reset.code } ∧
      a711_work_handler 0
          (run ([Op.a711_write 1 (some 'u'), Op.a711_ioctl true .A711_IOCTL_POWERDN true] ++
            [Op.a711_write 1 (some 'r')]) dev_gpio_only).1 =
        Kind.Reset.dispatch 0 { dev_gpio_only with last_request := A711_REQ_NONE } ∧
      (a711_work_handler 0
          (run ([Op.a711_write 1 (some 'u'), Op.a711_ioctl true .A711_IOCTL_POWERDN true] ++
            [Op.a711_write 1 (some 'r')]) dev_gpio_only).1).1.last_request = A711_REQ_NONE :=
  ⟨by decide, by decide,
    C1_coalescing dev_gpio_only
      [Op.a711_write 1 (some 'u'), Op.a711_ioctl true .A711_IOCTL_POWERDN true]
      (Op.a711_write 1 (some 'r')) Kind.Reset 0 (by decide) (by decide)⟩

/-- C2 (power cycle scenario): with no regulator and a reset line, from the
post-attach state (disabled, nothing pending) and for every reset duration `d`:
`write('u')` then one worker run makes exactly the calls enable line 1, reset
line 1, `msleep(d)`, reset line 0, after which the privileged status ioctl
succeeds and hands 1 to the caller; then `write('d')` and one worker run, after
which the status ioctl succeeds and hands 0 to the caller. -/
theorem C2_power_cycle (a : a711_dev) (d : Nat) (ret1 ret2 : Int)
    (hreg : a.regulator = false) (_hrst : a.reset_gpio = true)
    (hdur : a.reset_duration = d)
    (hen : a.is_enabled = 0) (_hreq : a.last_request = A711_REQ_NONE) :
    let up := a711_work_handler ret1 (a711_write 1 (some 'u') a).a711
    let status1 := a711_ioctl true .A711_IOCTL_STATUS true up.1
    let down := a711_work_handler ret2 (a711_write 1 (some 'd') status1.a711).a711
    let status2 := a711_ioctl true .A711_IOCTL_STATUS true down.1
    (a711_write 1 (some 'u') a).ret = .ok 1 ∧
      up.2 = [ .gpiod_set_value .enable_gpio 1, .gpiod_set_value .reset_gpio 1,
               .msleep d, .gpiod_set_value .reset_gpio 0 ] ∧
      status1.ret = .ok 0 ∧ status1.calls = [.copy_to_user 1] ∧
      (a711_write 1 (some 'd') status1.a711).ret = .ok 1 ∧
      status2.ret = .ok 0 ∧ status2.calls = [.copy_to_user 0] := by
  subst hdur
  simp [a711_write, a711_work_handler, a711_power_up, a711_power_down, a711_ioctl,
    A711_REQ_NONE, A711_REQ_RESET, A711_REQ_PWDN, A711_REQ_PWUP, hreg, hen]

/-- Witness of C2: the specification's scenario, a 10 ms reset pulse on a
freshly attached device with both lines and no regulator. -/
theorem C2_power_cycle_witness :
    dev_gpio_only.regulator = false ∧ dev_gpio_only.reset_gpio = true ∧
      dev_gpio_only.reset_duration = 10 ∧ dev_gpio_only.is_enabled = 0 ∧
      dev_gpio_only.last_request = A711_REQ_NONE ∧
      (a711_work_handler 0 (a711_write 1 (some 'u') dev_gpio_only).a711).2 =
        [ .gpiod_set_value .enable_gpio 1, .gpiod_set_value .reset_gpio 1,
          .msleep 10, .gpiod_set_value .reset_gpio 0 ] :=
  ⟨rfl, rfl, rfl, rfl, rfl,
    (C2_power_cycle dev_gpio_only 10 0 0 rfl rfl rfl rfl rfl).2.1⟩

/-- C3, as stated, fails: with a regulator whose `regulator_enable` returns an
error, power-down then power-up of an enabled device ends disabled, and the
power-up made no reset-line write and no sleep at all. -/
theorem C3_counterexample :
    (a711_power_up (-1)
        (a711_power_down { dev_regulator with is_enabled := 1 }).1).1.is_enabled = 0 ∧
      (a711_power_up (-1)
        (a711_power_down { dev_regulator with is_enabled := 1 }).1).2 =
        [.regulator_enable (-1)] := by
  decide

/-- C3 (amended): for every device state and configuration in which there is
no regulator or `regulator_enable` succeeds, power-down then power-up ends with
`is_enabled = 1`, and the calls of that power-up are the optional regulator
enable, the enable line write and exactly one reset pulse: reset line 1, one
`msleep` of `reset_duration`, reset line 0. -/
theorem C3_down_up_round_trip (a : a711_dev) (ret : Int)
    (hret : a.regulator = true → 0 ≤ ret) :
    (a711_power_up ret (a711_power_down a).1).1.is_enabled = 1 ∧
      (a711_power_up ret (a711_power_down a).1).2 =
        (if a.regulator then [.regulator_enable ret] else []) ++
          [ .gpiod_set_value .enable_gpio 1, .gpiod_set_value .reset_gpio 1,
            .msleep a.reset_duration, .gpiod_set_value .reset_gpio 0 ] ∧
      (a711_power_up ret (a711_power_down a).1).2.filter Call.isResetPulse =
        [ .gpiod_set_value .reset_gpio 1, .msleep a.reset_duration,
          .gpiod_set_value .reset_gpio 0 ] := by
  cases hr : a.regulator
  · by_cases hen : a.is_enabled = 0 <;>
      simp [a711_power_up, a711_power_down, Call.isResetPulse, hr, hen]
  · have hnl : ¬ ret < 0 := not_lt.mpr (hret hr)
    by_cases hen : a.is_enabled = 0 <;>
      simp [a711_power_up, a711_power_down, Call.isResetPulse, hr, hen, hnl]

/-- Witness of C3 (amended): an enabled device with a regulator whose enable
returns 0. The power-down really runs (enable line 0, `regulator_disable`,
`is_enabled` cleared), and the power-up after it enables the regulator, ends
with `is_enabled = 1` and makes exactly one 10 ms reset pulse. -/
theorem C3_down_up_round_trip_witness :
    (({ dev_regulator with is_enabled := 1 } : a711_dev).regulator = true → (0 : Int) ≤ 0) ∧
      a711_power_down { dev_regulator with is_enabled := 1 } =
        (dev_regulator, [.gpiod_set_value .enable_gpio 0, .regulator_disable]) ∧
      (a711_power_up 0
          (a711_power_down { dev_regulator with is_enabled := 1 }).1).1.is_enabled = 1 ∧
      (a711_power_up 0 (a711_power_down { dev_regulator with is_enabled := 1 }).1).2 =
        [ .regulator_enable 0, .gpiod_set_value .enable_gpio 1,
          .gpiod_set_value .reset_gpio 1, .msleep 10, .gpiod_set_value .reset_gpio 0 ] ∧
      (a711_power_up 0
          (a711_power_down { dev_regulator with is_enabled := 1 }).1).2.filter
            Call.isResetPulse =
        [ .gpiod_set_value .reset_gpio 1, .msleep 10, .gpiod_set_value .reset_gpio 0 ] :=
  ⟨fun _ => le_refl 0, by decide,
    (C3_down_up_round_trip { dev_regulator with is_enabled := 1 } 0 (fun _ => le_refl 0)).1,
    (C3_down_up_round_trip { dev_regulator with is_enabled := 1 } 0 (fun _ => le_refl 0)).2.1,
    (C3_down_up_round_trip { dev_regulator with is_enabled := 1 } 0 (fun _ => le_refl 0)).2.2⟩

/-- C4 (power-up idempotence): on every device state with `is_enabled` set,
`a711_power_up` invokes no kernel service at all and returns the device
unchanged; hence a second power-up after it is again the same no-op. -/
theorem C4_power_up_idempotent (a : a711_dev) (ret1 ret2 : Int) (hen : a.is_enabled ≠ 0) :
    a711_power_up ret1 a = (a, []) ∧
      a711_power_up ret2 (a711_power_up ret1 a).1 = a711_power_up ret1 a := by
  have h : ∀ r, a711_power_up r a = (a, []) := fun r => by simp [a711_power_up, hen]
  simp [h]

/-- Witness of C4: an enabled device with a regulator. -/
theorem C4_power_up_idempotent_witness :
    ({ dev_regulator with is_enabled := 1 } : a711_dev).is_enabled ≠ 0 ∧
      a711_power_up 0 { dev_regulator with is_enabled := 1 } =
        ({ dev_regulator with is_enabled := 1 }, []) :=
  ⟨by decide,
    (C4_power_up_idempotent { dev_regulator with is_enabled := 1 } 0 0 (by decide)).1⟩

/-- C5 (regulator failure): on every disabled device with a regulator, when
`regulator_enable` fails, `a711_power_up` returns the device unchanged and its
only call is that `regulator_enable` (no line write, no sleep); run from the
worker with PowerUp pending, the worker leaves the device disabled with the slot
empty, and a further worker run with no new submission invokes nothing and
changes nothing. -/
theorem C5_regulator_failure (a : a711_dev) (ret ret2 : Int)
    (hreg : a.regulator = true) (hen : a.is_enabled = 0) (hret : ret < 0) :
    a711_power_up ret a = (a, [.regulator_enable ret]) ∧
      a711_work_handler ret { a with last_request := A711_REQ_PWUP } =
        ({ a with last_request := A711_REQ_NONE }, [.regulator_enable ret]) ∧
      a711_work_handler ret2
          (a711_work_handler ret { a with last_request := A711_REQ_PWUP }).1 =
        ({ a with last_request := A711_REQ_NONE }, []) := by
  simp [a711_work_handler, a711_power_up, A711_REQ_NONE, A711_REQ_RESET, A711_REQ_PWDN,
    A711_REQ_PWUP, hreg, hen, hret]

/-- Witness of C5: a freshly attached device with a regulator whose enable
returns -1. -/
theorem C5_regulator_failure_witness :
    dev_regulator.regulator = true ∧ dev_regulator.is_enabled = 0 ∧ (-1 : Int) < 0 ∧
      a711_power_up (-1) dev_regulator = (dev_regulator, [.regulator_enable (-1)]) :=
  ⟨rfl, rfl, by decide,
    (C5_regulator_failure dev_regulator (-1) 0 rfl rfl (by decide)).1⟩

/-- C6 (wakeup delivery): on every device state with no wakeup pending, a
non-blocking read fails with `EWOULDBLOCK` and changes nothing; on every device
state, after the wakeup interrupt a non-blocking read whose copy to the caller
succeeds returns 1, hands the byte 1 to the caller and clears `got_wakeup`; and a
further non-blocking read, with no interrupt in between, fails with
`EWOULDBLOCK` again. -/
theorem C6_nonblocking_read (a b : a711_dev) (sg rc ok sg1 sg2 rc2 ok2 : Bool)
    (hclear : a.got_wakeup = 0) :
    a711_read true sg rc ok a = ⟨.error .EWOULDBLOCK, a, []⟩ ∧
      a711_read true sg1 false true (a711_wakeup_isr b).1 =
        ⟨.ok 1, { b with got_wakeup := 0 }, [.copy_to_user 1]⟩ ∧
      a711_read true sg2 rc2 ok2 (a711_read true sg1 false true (a711_wakeup_isr b).1).a711 =
        ⟨.error .EWOULDBLOCK, { b with got_wakeup := 0 }, []⟩ := by
  simp [a711_read, a711_has_wakeup, a711_wakeup_isr, wait_event_interruptible, hclear]

/-- Witness of C6: a freshly attached device, whose wakeup flag is clear. -/
theorem C6_nonblocking_read_witness :
    dev_gpio_only.got_wakeup = 0 ∧
      a711_read true false false true dev_gpio_only =
        ⟨.error .EWOULDBLOCK, dev_gpio_only, []⟩ ∧
      a711_read true false false true (a711_wakeup_isr dev_gpio_only).1 =
        ⟨.ok 1, { dev_gpio_only with got_wakeup := 0 }, [.copy_to_user 1]⟩ :=
  ⟨rfl,
    (C6_nonblocking_read dev_gpio_only dev_gpio_only false false true false false false
      true rfl).1,
    (C6_nonblocking_read dev_gpio_only dev_gpio_only false false true false false false
      true rfl).2.1⟩

/-- C7 (single-session exclusivity): on every device state that is open,
`a711_open` fails with `EBUSY` and leaves the device unchanged; on every device
state, release then open succeeds and leaves `is_open = 1`; release returns 0,
always leaves `is_open = 0`, and a second release changes nothing more. -/
theorem C7_open_release (a b : a711_dev) (hopen : a.is_open ≠ 0) :
    a711_open a = ⟨.error .EBUSY, a, []⟩ ∧
      a711_open (a711_release b).a711 = ⟨.ok 0, { b with is_open := 1 }, []⟩ ∧
      a711_release b = ⟨0, { b with is_open := 0 }, []⟩ ∧
      a711_release (a711_release b).a711 = a711_release b := by
  simp [a711_open, a711_release, hopen]

/-- Witness of C7: a device held open by a session. -/
theorem C7_open_release_witness :
    ({ dev_gpio_only with is_open := 1 } : a711_dev).is_open ≠ 0 ∧
      a711_open { dev_gpio_only with is_open := 1 } =
        ⟨.error .EBUSY, { dev_gpio_only with is_open := 1 }, []⟩ ∧
      a711_open (a711_release { dev_gpio_only with is_open := 1 }).a711 =
        ⟨.ok 0, { dev_gpio_only with is_open := 1 }, []⟩ :=
  ⟨by decide,
    (C7_open_release { dev_gpio_only with is_open := 1 } { dev_gpio_only with is_open := 1 }
      (by decide)).1,
    (C7_open_release { dev_gpio_only with is_open := 1 } { dev_gpio_only with is_open := 1 }
      (by decide)).2.1⟩

/-- C8 (optimistic status): on every device state the privileged status ioctl
leaves the device unchanged, schedules no work, and the value it hands to the
caller is 1 exactly when `is_enabled` is set or PowerUp is pending, 0 otherwise
(it returns 0 when that copy succeeds); so right after a PowerUp submission, by
`write('u')` or by the PowerUp ioctl, and before any worker run, it hands 1. -/
theorem C8_status_snapshot (a : a711_dev) (ok ok1 : Bool) (len : Nat) :
    (a711_ioctl true .A711_IOCTL_STATUS ok a).a711 = a ∧
      (a711_ioctl true .A711_IOCTL_STATUS ok a).calls =
        [.copy_to_user
          (if a.is_enabled ≠ 0 ∨ a.last_request = A711_REQ_PWUP then 1 else 0)] ∧
      Call.schedule_work ∉ (a711_ioctl true .A711_IOCTL_STATUS ok a).calls ∧
      (a711_ioctl true .A711_IOCTL_STATUS true a).ret = .ok 0 ∧
      (a711_ioctl true .A711_IOCTL_STATUS ok
          (a711_write (len + 1) (some 'u') a).a711).calls = [.copy_to_user 1] ∧
      (a711_ioctl true .A711_IOCTL_STATUS ok
          (a711_ioctl true .A711_IOCTL_POWERUP ok1 a).a711).calls = [.copy_to_user 1] := by
  cases ok <;> simp [a711_ioctl, a711_write]

/-- C9, as stated, fails: with PowerUp pending, a write of the byte `'x'`
changes the device (it empties the slot), and the next worker run then does
nothing where it would have powered the device up. -/
theorem C9_counterexample :
    (a711_write 1 (some 'x') { dev_gpio_only with last_request := A711_REQ_PWUP }).a711 ≠
        { dev_gpio_only with last_request := A711_REQ_PWUP } ∧
      a711_work_handler 0
          (a711_write 1 (some 'x')
            { dev_gpio_only with last_request := A711_REQ_PWUP }).a711 ≠
        a711_work_handler 0 { dev_gpio_only with last_request := A711_REQ_PWUP } := by
  decide

/-- C9 (amended): on every device state, a write of at least one byte whose
first byte is none of `'r'`, `'u'`, `'d'` returns 1, schedules no work and
changes only `last_request`, which it sets to `A711_REQ_NONE`; the next worker
run therefore dispatches nothing; and when nothing was pending the device is
unchanged and the next worker run does what it would have done without the
write. -/
theorem C9_unknown_byte (a : a711_dev) (len : Nat) (c : Char) (ret : Int)
    (hr : c ≠ 'r') (hu : c ≠ 'u') (hd : c ≠ 'd') :
    a711_write (len + 1) (some c) a =
        ⟨.ok 1, { a with last_request := A711_REQ_NONE }, []⟩ ∧
      a711_work_handler ret (a711_write (len + 1) (some c) a).a711 =
        ({ a with last_request := A711_REQ_NONE }, []) ∧
      (a.last_request = A711_REQ_NONE →
        (a711_write (len + 1) (some c) a).a711 = a ∧
          a711_work_handler ret (a711_write (len + 1) (some c) a).a711 =
            a711_work_handler ret a) := by
  have hw : a711_write (len + 1) (some c) a =
      ⟨.ok 1, { a with last_request := A711_REQ_NONE }, []⟩ := by
    simp [a711_write, hr, hu, hd, A711_REQ_NONE]
  have hk : a711_work_handler ret { a with last_request := A711_REQ_NONE } =
      ({ a with last_request := A711_REQ_NONE }, []) := by
    simp [a711_work_handler, A711_REQ_NONE, A711_REQ_RESET, A711_REQ_PWDN, A711_REQ_PWUP]
  refine ⟨hw, by rw [hw]; exact hk, fun hnone => ?_⟩
  have ha : ({ a with last_request := A711_REQ_NONE } : a711_dev) = a := by
    cases a
    simp_all
  rw [hw]
  simp only [ha]
  trivial

/-- Witness of C9 (amended): the byte `'x'` written to a device with PowerUp
pending. -/
theorem C9_unknown_byte_witness :
    'x' ≠ 'r' ∧ 'x' ≠ 'u' ∧ 'x' ≠ 'd' ∧
      a711_write 1 (some 'x') { dev_gpio_only with last_request := A711_REQ_PWUP } =
        ⟨.ok 1, dev_gpio_only, []⟩ :=
  ⟨by decide, by decide, by decide,
    (C9_unknown_byte { dev_gpio_only with last_request := A711_REQ_PWUP } 0 'x' 0
      (by decide) (by decide) (by decide)).1⟩

/-- C10, as stated, fails: a privileged ioctl with a command code the driver
does not define does not return 0, it fails with `ENOSYS`. -/
theorem C10_counterexample :
    (a711_ioctl true .other true dev_gpio_only).ret = .error .ENOSYS ∧
      (a711_ioctl true .other true dev_gpio_only).ret ≠ .ok 0 := by
  simp [a711_ioctl]

/-- C10 (amended): on every device state, a privileged ioctl whose command
code is none of Reset, PowerUp, PowerDown and Status fails with `ENOSYS`, leaves
the device unchanged and invokes nothing (no work is scheduled). -/
theorem C10_unknown_ioctl (a : a711_dev) (ok : Bool) :
    a711_ioctl true .other ok a = ⟨.error .ENOSYS, a, []⟩ := by
  simp [a711_ioctl]

/-- C11 (privilege gate): on every device state and for every command code,
Reset, PowerUp, PowerDown, Status or any other, `a711_ioctl` called without
`CAP_SYS_ADMIN` fails with `EACCES`, leaves the device unchanged (the pending
request in particular) and invokes nothing: no status is copied out and no work
is scheduled. -/
theorem C11_unprivileged_ioctl (a : a711_dev) (cmd : IoctlCmd) (ok : Bool) :
    a711_ioctl false cmd ok a = ⟨.error .EACCES, a, []⟩ ∧
      (a711_ioctl false cmd ok a).a711.last_request = a.last_request ∧
      (∀ v, Call.copy_to_user v ∉ (a711_ioctl false cmd ok a).calls) ∧
      Call.schedule_work ∉ (a711_ioctl false cmd ok a).calls := by
  simp [a711_ioctl]

/-- C12 (ioctl and write submit alike): on every device state, the privileged
Reset, PowerUp and PowerDown ioctls and the writes of `'r'`, `'u'` and `'d'`
leave the same device, which is the old one with `last_request` overwritten by
the matching request code, and both invoke exactly `schedule_work`. -/
theorem C12_ioctl_matches_write (a : a711_dev) (ok : Bool) (len : Nat) :
    ((a711_ioctl true .A711_IOCTL_RESET ok a).a711 =
        { a with last_request := A711_REQ_RESET } ∧
      (a711_write (len + 1) (some 'r') a).a711 =
        { a with last_request := A711_REQ_RESET } ∧
      (a711_ioctl true .A711_IOCTL_RESET ok a).calls = [.schedule_work] ∧
      (a711_write (len + 1) (some 'r') a).calls = [.schedule_work]) ∧
    ((a711_ioctl true .A711_IOCTL_POWERUP ok a).a711 =
        { a with last_request := A711_REQ_PWUP } ∧
      (a711_write (len + 1) (some 'u') a).a711 =
        { a with last_request := A711_REQ_PWUP } ∧
      (a711_ioctl true .A711_IOCTL_POWERUP ok a).calls = [.schedule_work] ∧
      (a711_write (len + 1) (some 'u') a).calls = [.schedule_work]) ∧
    ((a711_ioctl true .A711_IOCTL_POWERDN ok a).a711 =
        { a with last_request := A711_REQ_PWDN } ∧
      (a711_write (len + 1) (some 'd') a).a711 =
        { a with last_request := A711_REQ_PWDN } ∧
      (a711_ioctl true .A711_IOCTL_POWERDN ok a).calls = [.schedule_work] ∧
      (a711_write (len + 1) (some 'd') a).calls = [.schedule_work]) := by
  simp [a711_ioctl, a711_write, A711_REQ_RESET, A711_REQ_PWUP, A711_REQ_PWDN]

/-- C13 (write contract): on every device state, a write of length 0 returns 0,
changes nothing and invokes nothing; a write of any length at least 1 whose first
byte `c` can be copied in returns exactly 1, changes only `last_request`, which
becomes the code of the kind the specification's alphabet gives `c` (Reset for
`'r'`, PowerUp for `'u'`, PowerDown for `'d'`, None otherwise), and calls
`schedule_work` if and only if that kind is not None. -/
theorem C13_write_contract (a : a711_dev) (buf : Option Char) (len : Nat) (c : Char) :
    a711_write 0 buf a = ⟨.ok 0, a, []⟩ ∧
      (a711_write (len + 1) (some c) a).ret = .ok 1 ∧
      (a711_write (len + 1) (some c) a).a711 =
        { a with last_request := (Kind.ofByte c).code } ∧
      (a711_write (len + 1) (some c) a).calls =
        (if Kind.ofByte c = .None then [] else [.schedule_work]) ∧
      (Kind.ofByte 'r' = .Reset ∧ Kind.ofByte 'u' = .PowerUp ∧ Kind.ofByte 'd' = .PowerDown) ∧
      (c ≠ 'r' → c ≠ 'u' → c ≠ 'd' → Kind.ofByte c = .None) := by
  refine ⟨by simp [a711_write], by simp [a711_write], ?_, ?_, by decide, ?_⟩
  · simp only [a711_write, Kind.ofByte]
    split_ifs <;> simp_all [Kind.code]
  · simp only [a711_write, Kind.ofByte]
    split_ifs <;>
      simp_all [A711_REQ_NONE, A711_REQ_RESET, A711_REQ_PWUP, A711_REQ_PWDN]
  · intro hr hu hd
    simp [Kind.ofByte, hr, hu, hd]

/-- C14 at its failing input: with a wakeup pending, a non-blocking read whose
`copy_to_user` faults returns `EFAULT` and has already cleared `got_wakeup`; the
next non-blocking read, though its copy would succeed, fails with
`EWOULDBLOCK`: the event is lost, not delivered. -/
theorem C14_fault_consumes_wakeup :
    a711_read true false false false { dev_gpio_only with got_wakeup := 1 } =
        ⟨.error .EFAULT, { dev_gpio_only with got_wakeup := 0 }, [.copy_to_user 1]⟩ ∧
      (a711_read true false false false { dev_gpio_only with got_wakeup := 1 }).a711 ≠
        { dev_gpio_only with got_wakeup := 1 } ∧
      a711_read true false false true
          (a711_read true false false false { dev_gpio_only with got_wakeup := 1 }).a711 =
        ⟨.error .EWOULDBLOCK, { dev_gpio_only with got_wakeup := 0 }, []⟩ := by
  simp [a711_read, wait_event_interruptible, a711_has_wakeup, dev_gpio_only]

/-- C15 (callers only request): on every device state, a step that is not a
worker run (open, release, read, write, poll, ioctl with any command and
privilege, the wakeup interrupt) leaves `is_enabled` as it was and makes no
backend call (no line write, no regulator call, no sleep); if it changes
`got_wakeup` at all, it is either the interrupt, which leaves it at 1, or a read,
which leaves it at 0. A worker run leaves `got_wakeup` as it was, and it is a
worker run that changes `is_enabled` and makes backend calls. -/
theorem C15_callers_only_request (o : Op) (a : a711_dev) (ret : Int)
    (h : o.isWorker = false) :
    (step o a).1.is_enabled = a.is_enabled ∧
      (∀ c ∈ (step o a).2, c.isBackend = false) ∧
      ((step o a).1.got_wakeup ≠ a.got_wakeup →
        (o = .a711_wakeup_isr ∧ (step o a).1.got_wakeup = 1) ∨
          (o.isRead = true ∧ (step o a).1.got_wakeup = 0)) ∧
      (a711_work_handler ret a).1.got_wakeup = a.got_wakeup ∧
      ((a711_work_handler 0 { dev_gpio_only with last_request := A711_REQ_PWUP }).1.is_enabled ≠
          dev_gpio_only.is_enabled ∧
        (a711_work_handler 0 { dev_gpio_only with last_request := A711_REQ_PWUP }).2.all
          Call.isBackend = true) := by
  refine ⟨(step_frame o a h).1, (step_frame o a h).2.2, ?_, (work_handler_config ret a).2,
    by decide⟩
  cases o with
  | a711_open => by_cases ho : a.is_open = 0 <;> simp [step, a711_open, ho]
  | a711_release => simp [step, a711_release]
  | a711_read nb sg rc ok =>
    rcases read_frame nb sg rc ok a with e | e <;> simp [step, e, Op.isRead]
  | a711_write len buf =>
    obtain ⟨⟨x, hx⟩, _⟩ := write_frame len buf a
    simp [step, hx]
  | a711_poll => simp [step, a711_poll]
  | a711_ioctl cap cmd ok =>
    obtain ⟨⟨x, hx⟩, _⟩ := ioctl_frame cap cmd ok a
    simp [step, hx]
  | a711_wakeup_isr => simp [step, a711_wakeup_isr]
  | a711_work_handler r => simp [Op.isWorker] at h

/-- Witness of C15: the wakeup interrupt on a freshly attached device. -/
theorem C15_callers_only_request_witness :
    Op.a711_wakeup_isr.isWorker = false ∧
      (step .a711_wakeup_isr dev_gpio_only).1.is_enabled = dev_gpio_only.is_enabled ∧
      (∀ c ∈ (step .a711_wakeup_isr dev_gpio_only).2, c.isBackend = false) :=
  ⟨rfl, (C15_callers_only_request .a711_wakeup_isr dev_gpio_only 0 rfl).1,
    (C15_callers_only_request .a711_wakeup_isr dev_gpio_only 0 rfl).2.1⟩

/-- C16 (power-down): on a disabled device `a711_power_down` invokes nothing
and changes nothing; on an enabled device with a regulator it makes exactly the
calls enable line 0 then `regulator_disable`, the reset line not being written;
on an enabled device without a regulator it makes exactly the calls enable line
0 then reset line 1; in both enabled cases it then stores `is_enabled = 0` and
changes no other field. -/
theorem C16_power_down (a b c : a711_dev) (ha : a.is_enabled = 0)
    (hb : b.is_enabled ≠ 0) (hbr : b.regulator = true)
    (hc : c.is_enabled ≠ 0) (hcr : c.regulator = false) :
    a711_power_down a = (a, []) ∧
      a711_power_down b =
        ({ b with is_enabled := 0 }, [.gpiod_set_value .enable_gpio 0, .regulator_disable]) ∧
      (∀ v, Call.gpiod_set_value .reset_gpio v ∉ (a711_power_down b).2) ∧
      a711_power_down c =
        ({ c with is_enabled := 0 },
          [.gpiod_set_value .enable_gpio 0, .gpiod_set_value .reset_gpio 1]) := by
  simp [a711_power_down, ha, hb, hbr, hc, hcr]

/-- Witness of C16: a disabled device, an enabled one with a regulator and an
enabled one without. -/
theorem C16_power_down_witness :
    dev_gpio_only.is_enabled = 0 ∧
      ({ dev_regulator with is_enabled := 1 } : a711_dev).is_enabled ≠ 0 ∧
      ({ dev_regulator with is_enabled := 1 } : a711_dev).regulator = true ∧
      ({ dev_gpio_only with is_enabled := 1 } : a711_dev).is_enabled ≠ 0 ∧
      ({ dev_gpio_only with is_enabled := 1 } : a711_dev).regulator = false ∧
      a711_power_down { dev_regulator with is_enabled := 1 } =
        (dev_regulator, [.gpiod_set_value .enable_gpio 0, .regulator_disable]) ∧
      a711_power_down { dev_gpio_only with is_enabled := 1 } =
        (dev_gpio_only, [.gpiod_set_value .enable_gpio 0, .gpiod_set_value .reset_gpio 1]) :=
  ⟨rfl, by decide, rfl, by decide, rfl,
    (C16_power_down dev_gpio_only { dev_regulator with is_enabled := 1 }
      { dev_gpio_only with is_enabled := 1 } rfl (by decide) rfl (by decide) rfl).2.1,
    (C16_power_down dev_gpio_only { dev_regulator with is_enabled := 1 }
      { dev_gpio_only with is_enabled := 1 } rfl (by decide) rfl (by decide) rfl).2.2.2⟩

/-- C17 (reset): `a711_reset` invokes nothing when the device is not enabled or
no reset line is configured; on an enabled device with a reset line it makes
exactly the calls reset line 1, `msleep(reset_duration)`, reset line 0. In every
case it returns the device unchanged, `is_enabled` included, and none of its
calls is an enable line write or a regulator call. -/
theorem C17_reset (a b d : a711_dev) (ha : a.is_enabled = 0 ∨ a.reset_gpio = false)
    (hb : b.is_enabled ≠ 0) (hbr : b.reset_gpio = true) :
    a711_reset a = (a, []) ∧
      a711_reset b =
        (b, [.gpiod_set_value .reset_gpio 1, .msleep b.reset_duration,
          .gpiod_set_value .reset_gpio 0]) ∧
      (a711_reset d).1 = d ∧
      (∀ c ∈ (a711_reset d).2, c.isResetPulse = true) := by
  refine ⟨?_, by simp [a711_reset, hb, hbr], ?_, ?_⟩
  · rcases ha with h | h
    · simp [a711_reset, h]
    · by_cases he : a.is_enabled = 0 <;> simp [a711_reset, h, he]
  · unfold a711_reset
    split_ifs <;> rfl
  · unfold a711_reset
    split_ifs <;> simp [Call.isResetPulse]

/-- Witness of C17: a disabled device and an enabled one with a reset line. -/
theorem C17_reset_witness :
    (dev_gpio_only.is_enabled = 0 ∨ dev_gpio_only.reset_gpio = false) ∧
      ({ dev_gpio_only with is_enabled := 1 } : a711_dev).is_enabled ≠ 0 ∧
      ({ dev_gpio_only with is_enabled := 1 } : a711_dev).reset_gpio = true ∧
      a711_reset dev_gpio_only = (dev_gpio_only, []) ∧
      a711_reset { dev_gpio_only with is_enabled := 1 } =
        ({ dev_gpio_only with is_enabled := 1 },
          [.gpiod_set_value .reset_gpio 1, .msleep 10, .gpiod_set_value .reset_gpio 0]) :=
  ⟨Or.inl rfl, by decide, rfl,
    (C17_reset dev_gpio_only { dev_gpio_only with is_enabled := 1 } dev_gpio_only
      (Or.inl rfl) (by decide) rfl).1,
    (C17_reset dev_gpio_only { dev_gpio_only with is_enabled := 1 } dev_gpio_only
      (Or.inl rfl) (by decide) rfl).2.1⟩

/-- C18 (regulator balance): in a configuration with a regulator, from a
disabled device and an empty call history, after every finite sequence of steps
(entry point calls, interrupts, worker runs, with `regulator_enable` free to
succeed or fail at each worker run) the number of successful `regulator_enable`
calls minus the number of `regulator_disable` calls is 1 when `is_enabled` is set
and 0 when it is clear; and at every point of the call history that difference
is at least 0, so no `regulator_disable` comes without an earlier successful
enable that it matches. -/
theorem C18_regulator_balance (a : a711_dev) (ops : List Op)
    (hreg : a.regulator = true) (hen : a.is_enabled = 0) :
    regulatorBalance (run ops a).2 = (if (run ops a).1.is_enabled ≠ 0 then 1 else 0) ∧
      ∀ n, 0 ≤ regulatorBalance ((run ops a).2.take n) := by
  have h0 : enabledBit a = 0 := by simp [enabledBit, hen]
  refine ⟨?_, fun n => ?_⟩
  · have := run_balance ops a hreg
    rw [h0, sub_zero] at this
    exact this
  · have := run_balance_take ops a hreg n
    rw [h0, zero_add] at this
    exact this

/-- Witness of C18: on a freshly attached device with a regulator, a PowerUp
whose enable fails, a PowerUp whose enable succeeds, then a PowerDown. -/
theorem C18_regulator_balance_witness :
    dev_regulator.regulator = true ∧ dev_regulator.is_enabled = 0 ∧
      regulatorBalance
          (run [ .a711_write 1 (some 'u'), .a711_work_handler (-1),
                 .a711_write 1 (some 'u'), .a711_work_handler 0,
                 .a711_write 1 (some 'd'), .a711_work_handler 0 ] dev_regulator).2 =
        (if (run [ .a711_write 1 (some 'u'), .a711_work_handler (-1),
                   .a711_write 1 (some 'u'), .a711_work_handler 0,
                   .a711_write 1 (some 'd'), .a711_work_handler 0 ]
              dev_regulator).1.is_enabled ≠ 0 then 1 else 0) :=
  ⟨rfl, rfl,
    (C18_regulator_balance dev_regulator
      [ .a711_write 1 (some 'u'), .a711_work_handler (-1),
        .a711_write 1 (some 'u'), .a711_work_handler 0,
        .a711_write 1 (some 'd'), .a711_work_handler 0 ] rfl rfl).1⟩

/-- C19 (line and state consistency): after `a711_probe`, whatever the lines
were before it, and then after every finite sequence of steps (entry point
calls, interrupts, completed worker runs), the value last driven on the enable
line is non-zero exactly when `is_enabled` is set; and with a reset line and no
regulator, the value last driven on the reset line is non-zero exactly when
`is_enabled` is clear. -/
theorem C19_line_consistency (enable_gpio reset_gpio regulator : Bool) (dur : Option Nat)
    (l0 : Lines) (ops : List Op) :
    let probed := a711_probe enable_gpio reset_gpio regulator dur
    let final := run ops probed.1
    let lines := l0.after (probed.2 ++ final.2)
    (probed.1.is_enabled = 0 ∧ (l0.after probed.2).enable = 0 ∧
        (regulator = false → (l0.after probed.2).reset = 1)) ∧
      (lines.enable ≠ 0 ↔ final.1.is_enabled ≠ 0) ∧
      (reset_gpio = true → regulator = false →
        (lines.reset ≠ 0 ↔ final.1.is_enabled = 0)) := by
  intro probed final lines
  have h := run_lines ops probed.1 (l0.after probed.2)
    (probe_lines enable_gpio reset_gpio regulator dur l0)
  rw [← Lines.after_append] at h
  have hreg : final.1.regulator = regulator := by
    rw [run_regulator]
    rfl
  refine ⟨?_, h.1, fun _ hr => h.2 (by rw [hreg, hr])⟩
  cases regulator <;> simp [probed, a711_probe, Lines.after, Lines.drive]

/-- Witness of C19: probe with both lines and no regulator, then PowerUp,
Reset and PowerDown, each followed by a worker run; both lines end as the
disabled state requires, enable at 0 and reset at 1. -/
theorem C19_line_consistency_witness :
    ((Lines.mk 1 1).after
          ((a711_probe true true false none).2 ++
            (run [ .a711_write 1 (some 'u'), .a711_work_handler 0,
                   .a711_write 1 (some 'r'), .a711_work_handler 0,
                   .a711_write 1 (some 'd'), .a711_work_handler 0 ]
              (a711_probe true true false none).1).2)).reset ≠ 0 ↔
      (run [ .a711_write 1 (some 'u'), .a711_work_handler 0,
             .a711_write 1 (some 'r'), .a711_work_handler 0,
             .a711_write 1 (some 'd'), .a711_work_handler 0 ]
          (a711_probe true true false none).1).1.is_enabled = 0 :=
  (C19_line_consistency true true false none (Lines.mk 1 1)
    [ .a711_write 1 (some 'u'), .a711_work_handler 0,
      .a711_write 1 (some 'r'), .a711_work_handler 0,
      .a711_write 1 (some 'd'), .a711_work_handler 0 ]).2.2 rfl rfl

/-- C20 (wakeups coalesce): `a711_wakeup_isr` is idempotent on the device;
from every device state, after `n` interrupts, `n` at least 1, with no read in
between, the device is the one a single interrupt leaves; one non-blocking read
whose copy succeeds then returns 1 and clears the flag, and the read after it
fails with `EWOULDBLOCK`. -/
theorem C20_wakeups_coalesce (a : a711_dev) (n : Nat) (sg sg2 rc2 ok2 : Bool)
    (hn : 0 < n) :
    (a711_wakeup_isr (a711_wakeup_isr a).1).1 = (a711_wakeup_isr a).1 ∧
      (run (List.replicate n Op.a711_wakeup_isr) a).1 = (a711_wakeup_isr a).1 ∧
      a711_read true sg false true (run (List.replicate n Op.a711_wakeup_isr) a).1 =
        ⟨.ok 1, { a with got_wakeup := 0 }, [.copy_to_user 1]⟩ ∧
      a711_read true sg2 rc2 ok2
          (a711_read true sg false true
            (run (List.replicate n Op.a711_wakeup_isr) a).1).a711 =
        ⟨.error .EWOULDBLOCK, { a with got_wakeup := 0 }, []⟩ := by
  obtain ⟨m, rfl⟩ : ∃ m, n = m + 1 := ⟨n - 1, by omega⟩
  rw [run_wakeup_isr]
  simp [a711_read, a711_has_wakeup, a711_wakeup_isr, wait_event_interruptible]

/-- Witness of C20: three interrupts on a freshly attached device. -/
theorem C20_wakeups_coalesce_witness :
    0 < 3 ∧
      (run (List.replicate 3 Op.a711_wakeup_isr) dev_gpio_only).1 =
        (a711_wakeup_isr dev_gpio_only).1 ∧
      a711_read true false false true
          (run (List.replicate 3 Op.a711_wakeup_isr) dev_gpio_only).1 =
        ⟨.ok 1, { dev_gpio_only with got_wakeup := 0 }, [.copy_to_user 1]⟩ :=
  ⟨by decide,
    (C20_wakeups_coalesce dev_gpio_only 3 false false false false (by decide)).2.1,
    (C20_wakeups_coalesce dev_gpio_only 3 false false false false (by decide)).2.2.1⟩

end A711
